import Mathlib

/-!
Shallow embedding of `fetch_ent_copilot_billingseat.py` and
`fetch_ent_team_copilot_metrics.py` (copilot-team-metrics).

Python strings are modelled by `String`; Python dict/JSON values by the
`Json` inductive; a Python `set` of strings is modelled by a `List String`
(iteration order of a Python set is unspecified; every claim below only
depends on membership and emptiness, which are order-independent).
HTTP traffic is modelled by lists/functions of response records: the n-th
element models what the server answers to the n-th request the code makes.
-/

namespace CTM

/-! ## Python string primitives -/

/-- Model of Python `str.strip()` restricted to ASCII whitespace
(`str.strip` with no argument strips whitespace from both ends). -/
def stripBy (p : Char → Bool) (s : String) : String :=
  String.mk (((s.toList.dropWhile p).reverse.dropWhile p).reverse)

/-- Python `s.strip()`. -/
def pyStrip (s : String) : String :=
  stripBy Char.isWhitespace s

/-- Python `s.strip("-")`. -/
def stripHyphens (s : String) : String :=
  stripBy (fun c => c == '-') s

/-- Python `s.lower()` (ASCII case folding). -/
def pyLower (s : String) : String :=
  String.mk (s.toList.map Char.toLower)

/-- Python `c in s` for a single character. -/
def pyContains (s : String) (c : Char) : Bool :=
  s.toList.contains c

/-- Python `s.split(sep, 1)[0]` for a one-character separator: the text
before the first occurrence of `c` (the whole string when `c` is absent). -/
def beforeFirst (c : Char) (s : String) : String :=
  String.mk (s.toList.takeWhile (fun d => d ≠ c))

/-- Python `s.replace(a, "")` for a one-character pattern. -/
def removeChar (a : Char) (s : String) : String :=
  String.mk (s.toList.filter (fun c => c ≠ a))

/-- Python `s.replace(a, b)` for one-character pattern and replacement. -/
def mapChar (a b : Char) (s : String) : String :=
  String.mk (s.toList.map (fun c => if c = a then b else c))

/-- Python `s.replace(a, r)` for a one-character pattern and a string
replacement (used for `"Z" -> "+00:00"`). -/
def replaceCharStr (a : Char) (r : String) (s : String) : String :=
  String.mk (s.toList.flatMap (fun c => if c = a then r.toList else [c]))

/-- Keep only the characters satisfying `p`
(Python `re.sub(r"[^...]", "", s)`). -/
def keepChars (p : Char → Bool) (s : String) : String :=
  String.mk (s.toList.filter p)

/-- ASCII `[a-z0-9]` class used by the candidate generator's regexes. -/
def isLowerAlnum (c : Char) : Bool :=
  ('a' ≤ c && c ≤ 'z') || ('0' ≤ c && c ≤ '9')

/-- Python `s.isdigit()` restricted to ASCII digits. -/
def allDigits (s : String) : Bool :=
  s.toList.all Char.isDigit && !s.toList.isEmpty

/-- Python `int(s)` for an all-digit string. -/
def parseNat (s : String) : Nat :=
  s.toList.foldl (fun n c => 10 * n + (c.toNat - '0'.toNat)) 0

/-! ## Suffix token and login candidates
(`derive_suffix_token`, `generate_login_candidates_from_email`).
The module globals `LOGIN_SUFFIX = (os.getenv("LOGIN_SUFFIX") or "").strip().lower()`
and `ENTERPRISE_SLUG` are passed as the explicit arguments `loginSuffixEnv`
(the raw environment value) and `enterpriseSlug`. -/

/-- The module-level `LOGIN_SUFFIX` global: `(env or "").strip().lower()`. -/
def loginSuffixGlobal (env : Option String) : String :=
  pyLower (pyStrip (env.getD ""))

/-- `derive_suffix_token()`: the `LOGIN_SUFFIX` global when non-empty, else
`(ENTERPRISE_SLUG.split("-", 1)[0] or "").strip().lower()`. -/
def derive_suffix_token (loginSuffix enterpriseSlug : String) : String :=
  if loginSuffix ≠ "" then loginSuffix
  else pyLower (pyStrip (beforeFirst '-' enterpriseSlug))

/-- The six local-part variants built in `generate_login_candidates_from_email`
(the Python `variants` set; modelled as a list, duplicates immaterial). -/
def variantsOf (localPart : String) : List String :=
  [ localPart,
    removeChar '.' localPart,
    mapChar '.' '-' localPart,
    mapChar '_' '-' localPart,
    keepChars (fun c => isLowerAlnum c || c == '-') localPart,
    keepChars isLowerAlnum localPart ]

/-- One step of the `for v in list(variants)` loop: `v.strip("-").strip()`,
skip when empty, else add `v` and (when a suffix is configured) `v_suffix`. -/
def addCandidate (suffix : String) (out : List String) (v0 : String) : List String :=
  let v := pyStrip (stripHyphens v0)
  if v = "" then out
  else out ++ [v] ++ (if suffix ≠ "" then [v ++ "_" ++ suffix] else [])

/-- `generate_login_candidates_from_email(email)` with the two module globals
passed explicitly.  Returns the candidate set (modelled as a list). -/
def generate_login_candidates_from_email
    (loginSuffix enterpriseSlug email : String) : List String :=
  let email := pyLower (pyStrip email)
  if ¬ pyContains email '@' then []
  else
    let localPart := pyStrip (beforeFirst '@' email)
    if localPart = "" then []
    else
      let suffix := derive_suffix_token loginSuffix enterpriseSlug
      (variantsOf localPart).foldl (addCandidate suffix) []

/-! ## JSON values -/

/-- JSON values / Python objects moved around by the scripts. -/
inductive Json where
  | null : Json
  | bool (b : Bool) : Json
  | num (n : Int) : Json
  | str (s : String) : Json
  | arr (xs : List Json) : Json
  | obj (kvs : List (String × Json)) : Json

/-- Python truthiness of a JSON value (`if v:`). -/
def jsonTruthy : Json → Bool
  | .null => false
  | .bool b => b
  | .num n => n ≠ 0
  | .str s => s ≠ ""
  | .arr xs => !xs.isEmpty
  | .obj kvs => !kvs.isEmpty

/-- Python `d.get(k)` on a dict (returns `none` when the key is absent or the
value is not a dict). -/
def jget (j : Json) (k : String) : Option Json :=
  match j with
  | .obj kvs => kvs.lookup k
  | _ => none

/-- The string content of an optional JSON value; the scripts only ever read
string-valued fields here, so non-string values are modelled as absent. -/
def jstr (o : Option Json) : Option String :=
  match o with
  | some (.str s) => some s
  | _ => none

/-- Python `d.get(k, "")` for a string-valued field. -/
def jgetStrD (j : Json) (k : String) : String :=
  (jstr (jget j k)).getD ""

/-- Python `a or b or ... or ""` over string-valued candidates: the first
truthy (non-empty) string, else `""`. -/
def firstTruthyStr : List (Option String) → String
  | [] => ""
  | o :: rest =>
    match o with
    | some s => if s ≠ "" then s else firstTruthyStr rest
    | none => firstTruthyStr rest

/-! ## Retrying HTTP client (`gh_get`)
The server is modelled by `get : Nat → HttpResponse`, giving the response to
the attempt-`a` request (`a = 1, ..., 6`).  The result records the returned
response, the number of GET calls made and the sleeps performed (in
seconds, in order). -/

/-- A response as seen by `fetch_ent_copilot_billingseat.py`: status code,
optional `Retry-After` header, body text and parsed JSON body. -/
structure HttpResponse where
  status : Int
  retryAfter : Option String
  text : String
  json : Json

/-- The retried status codes of `gh_get`. -/
def retryStatuses : List Int := [403, 429, 500, 502, 503, 504]

/-- Wait before the next attempt:
`int(retry_after) if retry_after and retry_after.isdigit() else min(30, 2 * attempt)`. -/
def pyWait (resp : HttpResponse) (attempt : Nat) : Nat :=
  match resp.retryAfter with
  | some ra => if ra ≠ "" && allDigits ra then parseNat ra else min 30 (2 * attempt)
  | none => min 30 (2 * attempt)

/-- Result of a `gh_get` call: the response handed back to the caller, the
number of GET requests issued, and the sleep durations performed. -/
structure GhGetResult where
  response : HttpResponse
  attempts : Nat
  waits : List Nat

/-- The `for attempt in range(1, 7)` loop of `gh_get`: `a` is the current
attempt number, the second argument the number of attempts still allowed.
When the loop exhausts, the previous (`last`) response is returned. -/
def gh_get_aux (get : Nat → HttpResponse) : Nat → Nat → GhGetResult
  | a, 0 => ⟨get (a - 1), 0, []⟩
  | a, r + 1 =>
    let resp := get a
    if retryStatuses.contains resp.status then
      let res := gh_get_aux get (a + 1) r
      ⟨res.response, res.attempts + 1, pyWait resp a :: res.waits⟩
    else ⟨resp, 1, []⟩

/-- `gh_get(url, headers, params)`: up to 6 attempts starting at attempt 1. -/
def gh_get (get : Nat → HttpResponse) : GhGetResult :=
  gh_get_aux get 1 6

/-! ## Envelope normalizer (`normalize_list_payload`) -/

/-- Python `type(x)` name, used in the `RuntimeError` message. -/
def pyTypeName : Json → String
  | .null => "NoneType"
  | .bool _ => "bool"
  | .num _ => "int"
  | .str _ => "str"
  | .arr _ => "list"
  | .obj _ => "dict"

/-- The `for k in keys` loop body: the first key whose value is a list. -/
def tryKeysForList (kvs : List (String × Json)) : List String → Option (List Json)
  | [] => none
  | k :: ks =>
    match kvs.lookup k with
    | some (.arr v) => some v
    | _ => tryKeysForList kvs ks

/-- `normalize_list_payload(payload, keys)`: a bare list is returned as is; a
dict yields the first list value under the given keys in order; anything
else (or a dict with no such key) raises `RuntimeError`. -/
def normalize_list_payload (payload : Json) (keys : List String) :
    Except String (List Json) :=
  match payload with
  | .arr xs => .ok xs
  | .obj kvs =>
    match tryKeysForList kvs keys with
    | some v => .ok v
    | none => .error ("Unsupported list payload shape: " ++ pyTypeName payload)
  | _ => .error ("Unsupported list payload shape: " ++ pyTypeName payload)

/-! ## Page-number collector (`fetch_rest_list_paged`)
`pages` lists the responses `gh_get` hands back for pages `1, 2, ...` in
order.  Exhausting `pages` while the loop still wants another page is a
model artifact reported as a distinguished error. -/

/-- `fetch_rest_list_paged(url, headers, keys, per_page)`: raise on 403/404
with endpoint and body, `raise_for_status()` on other error codes, normalize
the payload, stop on a short page. -/
def fetch_rest_list_paged (url : String) (keys : List String) (perPage : Nat) :
    List HttpResponse → Except String (List Json)
  | [] => .error "model: response sequence exhausted"
  | r :: rest =>
    if r.status = 403 ∨ r.status = 404 then
      .error (toString r.status ++ " for " ++ url ++ ": " ++ r.text)
    else if 400 ≤ r.status ∧ r.status < 600 then
      .error (toString r.status ++ " Error for url: " ++ url)
    else
      match normalize_list_payload r.json keys with
      | .error e => .error e
      | .ok items =>
        if items.length < perPage then .ok items
        else
          match fetch_rest_list_paged url keys perPage rest with
          | .error e => .error e
          | .ok more => .ok (items ++ more)

/-! ## Metrics-script collectors (`fetch_team_metrics`)
`fetch_ent_team_copilot_metrics.py` drives plain `requests.get`; a response
is modelled by its status, the JSON array body and whether a `next` link
relation is present.  Rate-limit handling (`handle_rate_limit`) only sleeps
and is omitted from the model. -/

/-- A response as seen by the metrics script. -/
structure PagedResponse where
  status : Int
  entries : List Json
  hasNext : Bool

/-- `fetch_team_metrics(team_slug)`: on 404 log and stop, on non-200 log and
stop, on an empty body stop; otherwise accumulate and follow the `next`
link.  Always returns the entries accumulated so far. -/
def fetch_team_metrics : List PagedResponse → List Json
  | [] => []
  | r :: rest =>
    if r.status = 404 then []
    else if r.status ≠ 200 then []
    else if r.entries.isEmpty then []
    else r.entries ++ (if r.hasNext then fetch_team_metrics rest else [])

/-! ## SCIM pagination (`fetch_all_scim_users`)
A page is the JSON body of one index/count request; `pages` lists the bodies
the directory endpoint answers with, in request order.  `int(x or 0)` on the
reported counters is modelled by `Option Int` with a zero/absent collapse,
exactly mirroring Python truthiness of `0`/`None`. -/

/-- One SCIM page body: `Resources`, `totalResults`, `itemsPerPage`
(`none` models an absent field). -/
structure ScimPage where
  resources : List Json
  totalResults : Option Int
  itemsPerPage : Option Int

/-- `int(payload.get("totalResults") or 0)`. -/
def scimTotalResults (p : ScimPage) : Int :=
  match p.totalResults with
  | some n => if n = 0 then 0 else n
  | none => 0

/-- `int(payload.get("itemsPerPage") or len(resources) or 0)`: the reported
value when present and non-zero, else the page's resource count. -/
def scimItemsPerPage (p : ScimPage) : Int :=
  match p.itemsPerPage with
  | some n => if n = 0 then (p.resources.length : Int) else n
  | none => (p.resources.length : Int)

/-- The `while True` loop of `fetch_all_scim_users`, also counting the pages
requested: break when the effective items-per-page is `<= 0`, else advance
`startIndex` and break when it exceeds `totalResults`. -/
def fetch_all_scim_users_go : List ScimPage → Int → List Json × Nat
  | [], _ => ([], 0)
  | p :: rest, startIndex =>
    let ipp := scimItemsPerPage p
    if ipp ≤ 0 then (p.resources, 1)
    else
      let nextIndex := startIndex + ipp
      if nextIndex > scimTotalResults p then (p.resources, 1)
      else
        let res := fetch_all_scim_users_go rest nextIndex
        (p.resources ++ res.1, res.2 + 1)

/-- `fetch_all_scim_users()`: collection starts at `startIndex = 1`.
Returns the accumulated `Resources` and the number of pages requested. -/
def fetch_all_scim_users (pages : List ScimPage) : List Json × Nat :=
  fetch_all_scim_users_go pages 1

/-! ## SCIM record fields (`pick_scim_email`, `pick_scim_name`)
A SCIM user entry is modelled structurally (the scripts only read these
fields, always string-valued). -/

/-- One element of a SCIM user's `emails` list. -/
structure ScimEmail where
  primary : Option Bool
  value : Option String
deriving DecidableEq, Repr

/-- The nested `name` object of a SCIM user. -/
structure ScimName where
  formatted : Option String
  givenName : Option String
  familyName : Option String
deriving DecidableEq, Repr

/-- A SCIM user entry. -/
structure ScimUser where
  emails : List ScimEmail
  userName : Option String
  displayName : Option String
  name : Option ScimName
deriving DecidableEq, Repr

/-- `pick_scim_email(u)`: the first flagged-primary email with a value, else
the first email with a value, else the userName when it contains `@`. -/
def pick_scim_email (u : ScimUser) : String :=
  match u.emails.find? (fun e => e.primary == some true && e.value.getD "" ≠ "") with
  | some e => pyStrip (e.value.getD "")
  | none =>
    match u.emails.find? (fun e => e.value.getD "" ≠ "") with
    | some e => pyStrip (e.value.getD "")
    | none =>
      let userName := pyStrip (u.userName.getD "")
      if pyContains userName '@' then userName else ""

/-- `pick_scim_name(u)`: displayName, else `name.formatted`, else
`givenName familyName` joined by a space. -/
def pick_scim_name (u : ScimUser) : String :=
  let dn := pyStrip (u.displayName.getD "")
  if dn ≠ "" then dn
  else
    let nameObj := u.name.getD ⟨none, none, none⟩
    let formatted := pyStrip (nameObj.formatted.getD "")
    if formatted ≠ "" then formatted
    else
      let given := pyStrip (nameObj.givenName.getD "")
      let family := pyStrip (nameObj.familyName.getD "")
      let full := pyStrip (String.intercalate " " ([given, family].filter (fun p => p ≠ "")))
      if full ≠ "" then full else ""

/-! ## Identity index (`build_scim_index`) -/

/-- The value stored under each index key:
`{"name": ..., "email": ..., "scim_userName": ...}`. -/
structure IdentityFields where
  name : String
  email : String
  scim_userName : String
deriving DecidableEq, Repr

/-- The identity fields recorded for a SCIM user. -/
def identityOf (u : ScimUser) : IdentityFields :=
  ⟨pick_scim_name u, pick_scim_email u, pyStrip (u.userName.getD "")⟩

/-- The candidate-key set one SCIM user claims (the Python `keys` set,
modelled as a list; duplicates and order are immaterial because every key of
one record maps to the same value). -/
def recordKeys (loginSuffix enterpriseSlug : String) (u : ScimUser) : List String :=
  let email := pick_scim_email u
  let scimUserName := pyStrip (u.userName.getD "")
  (if email ≠ "" then
      [pyLower email, pyLower (beforeFirst '@' email)]
        ++ generate_login_candidates_from_email loginSuffix enterpriseSlug email
   else [])
  ++ (if scimUserName ≠ "" then
        [pyLower scimUserName]
          ++ (if pyContains scimUserName '@' then
                [pyLower (beforeFirst '@' scimUserName)]
                  ++ generate_login_candidates_from_email loginSuffix enterpriseSlug scimUserName
              else [])
      else [])

/-- One `idx.setdefault(k, fields)` step, with the `if not k: continue`
guard: an empty key is skipped, an existing key is left untouched. -/
def insertKey (idx : List (String × IdentityFields)) (fields : IdentityFields)
    (k : String) : List (String × IdentityFields) :=
  if k = "" then idx
  else if (idx.lookup k).isSome then idx
  else idx ++ [(k, fields)]

/-- Processing one SCIM user of the `build_scim_index` loop. -/
def indexUser (loginSuffix enterpriseSlug : String)
    (idx : List (String × IdentityFields)) (u : ScimUser) :
    List (String × IdentityFields) :=
  (recordKeys loginSuffix enterpriseSlug u).foldl
    (fun idx k => insertKey idx (identityOf u) k) idx

/-- `build_scim_index(scim_users)`: the dict is modelled as an insertion-order
association list; `setdefault` gives first-write-wins. -/
def build_scim_index (loginSuffix enterpriseSlug : String)
    (users : List ScimUser) : List (String × IdentityFields) :=
  users.foldl (indexUser loginSuffix enterpriseSlug) []

/-! ## Copilot seats (`fetch_copilot_billing_seats_by_login`, `is_active`) -/

/-- Python dict assignment `d[k] = v` on an insertion-ordered association
list: overwrite in place when present, append otherwise (last-write-wins). -/
def dictInsert (m : List (String × Json)) (k : String) (v : Json) :
    List (String × Json) :=
  if m.any (fun p => p.1 = k) then
    m.map (fun p => if p.1 = k then (k, v) else p)
  else m ++ [(k, v)]

/-- The `by_login` indexing loop of `fetch_copilot_billing_seats_by_login`:
`login = ((s.get("assignee") or {}).get("login") or "").strip()`, skip empty
logins, later seats overwrite earlier ones. -/
def seats_by_login (allSeats : List Json) : List (String × Json) :=
  allSeats.foldl
    (fun byLogin s =>
      let assignee :=
        match jget s "assignee" with
        | some v => if jsonTruthy v then v else .obj []
        | none => .obj []
      let login := pyStrip ((jstr (jget assignee "login")).getD "")
      if login ≠ "" then dictInsert byLogin login s else byLogin)
    []

/-- `is_active(last_activity_at)`.  The stdlib `datetime.fromisoformat` is an
external collaborator and is passed as `parse`, mapping a timestamp string to
epoch seconds (`none` models a parse exception); `now` is the evaluation
instant in epoch seconds.  `30 * 86400` is `timedelta(days=30)`. -/
def is_active (parse : String → Option Int) (now : Int) :
    Option String → String
  | none => "inactive"
  | some s =>
    if s = "" then "inactive"
    else
      match parse (replaceCharStr 'Z' "+00:00" s) with
      | none => "inactive"
      | some t => if now - t ≤ 30 * 86400 then "active" else "inactive"

/-! ## Membership login extraction (`parse_membership_login`) -/

/-- Walk a nested-field path, requiring every intermediate value to be a dict
containing the key (the `isinstance(cur, dict) and p in cur` walk). -/
def getPath : Json → List String → Option Json
  | cur, [] => some cur
  | .obj kvs, p :: ps =>
    match kvs.lookup p with
    | some v => getPath v ps
    | none => none
  | _, _ :: _ => none

/-- One candidate path: succeeds when the walk ends on a string with
non-empty strip, returning the stripped string. -/
def tryPath (m : Json) (path : List String) : Option String :=
  match getPath m path with
  | some (.str s) => if pyStrip s ≠ "" then some (pyStrip s) else none
  | _ => none

/-- `parse_membership_login(m)`: first structurally valid non-empty string
among `user.login`, `member.login`, `login`; else `""`. -/
def parse_membership_login (m : Json) : String :=
  match tryPath m ["user", "login"] with
  | some s => s
  | none =>
    match tryPath m ["member", "login"] with
    | some s => s
    | none =>
      match tryPath m ["login"] with
      | some s => s
      | none => ""

/-! ## Report rows (`main` of the billing-seat script) -/

/-- One CSV row of the team/seat report (the 14 columns of `fieldnames`). -/
structure ReportRow where
  enterprise : String
  team_name : String
  team_slug : String
  login : String
  name : String
  email : String
  scim_userName : String
  copilot_assigned : String
  copilot_status : String
  plan_type : String
  last_activity_at : String
  active_status : String
  seat_created_at : String
  seat_updated_at : String
deriving DecidableEq, Repr

/-- The row literal appended for one (team, membership) pair.  `seats.get`
is an exact (case-sensitive) dict lookup on the raw login; the SCIM lookup
key is `login.lower().strip()`.  `if seat` is Python truthiness of the seat
dict, so an absent seat (and only then an empty one) yields the blank/"no"
seat columns. -/
def rowFor (enterpriseSlug : String) (idx : List (String × IdentityFields))
    (seats : List (String × Json)) (parse : String → Option Int) (now : Int)
    (teamName teamSlug login : String) : ReportRow :=
  let key := pyStrip (pyLower login)
  let scim := idx.lookup key
  let seat := seats.lookup login
  let seatTruthy := match seat with
    | some v => jsonTruthy v
    | none => false
  let seatV := seat.getD (.obj [])
  { enterprise := enterpriseSlug
    team_name := teamName
    team_slug := teamSlug
    login := login
    name := match scim with | some f => f.name | none => ""
    email := match scim with | some f => f.email | none => ""
    scim_userName := match scim with | some f => f.scim_userName | none => ""
    copilot_assigned := if seatTruthy then "yes" else "no"
    copilot_status := if seatTruthy then jgetStrD seatV "status" else ""
    plan_type := if seatTruthy then jgetStrD seatV "plan_type" else ""
    last_activity_at := if seatTruthy then jgetStrD seatV "last_activity_at" else ""
    active_status :=
      if seatTruthy then is_active parse now (jstr (jget seatV "last_activity_at"))
      else "inactive"
    seat_created_at := if seatTruthy then jgetStrD seatV "created_at" else ""
    seat_updated_at := if seatTruthy then jgetStrD seatV "updated_at" else "" }

/-- The team name / team slug extraction of the `main` loop. -/
def teamNameOf (t : Json) : String :=
  pyStrip (firstTruthyStr [jstr (jget t "name"), jstr (jget t "display_name"),
    jstr (jget t "slug")])

/-- `(t.get("slug") or t.get("team_slug") or "").strip()`. -/
def teamSlugOf (t : Json) : String :=
  pyStrip (firstTruthyStr [jstr (jget t "slug"), jstr (jget t "team_slug")])

/-- The row-building double loop of `main`: teams without a slug are skipped
(`continue`), memberships without a parseable login are skipped, every other
(team, membership) pair appends exactly one row. -/
def mainRows (enterpriseSlug : String) (idx : List (String × IdentityFields))
    (seats : List (String × Json)) (parse : String → Option Int) (now : Int)
    (teams : List Json) (membershipsOf : String → List Json) : List ReportRow :=
  teams.foldl
    (fun rows t =>
      let teamName := teamNameOf t
      let teamSlug := teamSlugOf t
      if teamSlug = "" then rows
      else
        (membershipsOf teamSlug).foldl
          (fun rows m =>
            let login := parse_membership_login m
            if login = "" then rows
            else rows ++ [rowFor enterpriseSlug idx seats parse now teamName teamSlug login])
          rows)
    []

/-! ## Metrics flattening (`write_to_csv` of the metrics script)
A metrics entry is modelled structurally; every `x.get(k, default)` of the
source becomes an `Option` field read with `getD`.  A CSV row is the ordered
19-column record written by `csv_writer.writerow`. -/

/-- One language block under a code-completion model. -/
structure CCLanguage where
  name : Option String
  total_engaged_users : Option Int
  total_code_acceptances : Option Int
  total_code_suggestions : Option Int
  total_code_lines_accepted : Option Int
  total_code_lines_suggested : Option Int
deriving DecidableEq, Repr

/-- One model block under a code-completion editor. -/
structure CCModel where
  name : Option String
  is_custom_model : Option Bool
  total_chats : Option Int
  languages : Option (List CCLanguage)
deriving DecidableEq, Repr

/-- One editor block under `copilot_ide_code_completions`. -/
structure CCEditor where
  name : Option String
  models : Option (List CCModel)
deriving DecidableEq, Repr

/-- The `copilot_ide_code_completions` block. -/
structure CCBlock where
  editors : Option (List CCEditor)
deriving DecidableEq, Repr

/-- One model block under an IDE-chat editor. -/
structure ChatModel where
  total_chats : Option Int
  is_custom_model : Option Bool
  total_chat_copy_events : Option Int
  total_chat_insertion_events : Option Int
deriving DecidableEq, Repr

/-- One editor block under `copilot_ide_chat`. -/
structure ChatEditor where
  name : Option String
  models : Option (List ChatModel)
deriving DecidableEq, Repr

/-- The `copilot_ide_chat` block. -/
structure ChatBlock where
  editors : Option (List ChatEditor)
deriving DecidableEq, Repr

/-- A block carrying only `total_engaged_users`
(`copilot_dotcom_chat`, `copilot_dotcom_pull_requests`). -/
structure EngagedBlock where
  total_engaged_users : Option Int
deriving DecidableEq, Repr

/-- One per-date metrics entry. -/
structure MetricsEntry where
  date : Option String
  total_active_users : Option Int
  copilot_ide_code_completions : Option CCBlock
  copilot_dotcom_chat : Option EngagedBlock
  copilot_dotcom_pull_requests : Option EngagedBlock
  copilot_ide_chat : Option ChatBlock
deriving DecidableEq, Repr

/-- One 19-column CSV row of the metrics report, fields in column order. -/
structure MetricsRow where
  enterprise : String
  team : String
  date : String
  editor : String
  model : String
  language : String
  total_engaged_users : Int
  total_code_acceptances : Int
  total_code_suggestions : Int
  total_code_lines_accepted : Int
  total_code_lines_suggested : Int
  total_active_users : Int
  total_chat_engaged_users : Int
  total_pull_request_engaged_users : Int
  chat_editor_name : String
  total_chats : Int
  is_custom_model : Bool
  total_chat_copy_events : Int
  total_chat_insertion_events : Int
deriving DecidableEq, Repr

/-- The code-completion row family of one entry: one row per
(editor, model, language) triple, in loop order. -/
def ccRowsOf (enterpriseId teamName : String) (entry : MetricsEntry) :
    List MetricsRow :=
  let date := entry.date.getD "N/A"
  let totalActive := entry.total_active_users.getD 0
  let totalChatEngaged :=
    (entry.copilot_dotcom_chat.getD ⟨none⟩).total_engaged_users.getD 0
  let totalPrEngaged :=
    (entry.copilot_dotcom_pull_requests.getD ⟨none⟩).total_engaged_users.getD 0
  ((entry.copilot_ide_code_completions.getD ⟨none⟩).editors.getD []).flatMap
    (fun editor =>
      (editor.models.getD []).flatMap
        (fun model =>
          (model.languages.getD []).map
            (fun language =>
              { enterprise := enterpriseId
                team := teamName
                date := date
                editor := editor.name.getD "N/A"
                model := model.name.getD "N/A"
                language := language.name.getD "N/A"
                total_engaged_users := language.total_engaged_users.getD 0
                total_code_acceptances := language.total_code_acceptances.getD 0
                total_code_suggestions := language.total_code_suggestions.getD 0
                total_code_lines_accepted := language.total_code_lines_accepted.getD 0
                total_code_lines_suggested := language.total_code_lines_suggested.getD 0
                total_active_users := totalActive
                total_chat_engaged_users := totalChatEngaged
                total_pull_request_engaged_users := totalPrEngaged
                chat_editor_name := ""
                total_chats := 0
                is_custom_model := false
                total_chat_copy_events := 0
                total_chat_insertion_events := 0 })))

/-- The IDE-chat row family of one entry: one row per
(chat editor, model) pair, in loop order. -/
def chatRowsOf (enterpriseId teamName : String) (entry : MetricsEntry) :
    List MetricsRow :=
  let date := entry.date.getD "N/A"
  let totalActive := entry.total_active_users.getD 0
  let totalChatEngaged :=
    (entry.copilot_dotcom_chat.getD ⟨none⟩).total_engaged_users.getD 0
  let totalPrEngaged :=
    (entry.copilot_dotcom_pull_requests.getD ⟨none⟩).total_engaged_users.getD 0
  ((entry.copilot_ide_chat.getD ⟨none⟩).editors.getD []).flatMap
    (fun chatEditor =>
      (chatEditor.models.getD []).map
        (fun model =>
          { enterprise := enterpriseId
            team := teamName
            date := date
            editor := ""
            model := ""
            language := ""
            total_engaged_users := 0
            total_code_acceptances := 0
            total_code_suggestions := 0
            total_code_lines_accepted := 0
            total_code_lines_suggested := 0
            total_active_users := totalActive
            total_chat_engaged_users := totalChatEngaged
            total_pull_request_engaged_users := totalPrEngaged
            chat_editor_name := chatEditor.name.getD "N/A"
            total_chats := model.total_chats.getD 0
            is_custom_model := model.is_custom_model.getD false
            total_chat_copy_events := model.total_chat_copy_events.getD 0
            total_chat_insertion_events := model.total_chat_insertion_events.getD 0 }))

/-- All rows `write_to_csv` emits for one entry: the code-completion family
first, then the chat family (source loop order). -/
def entryRows (enterpriseId teamName : String) (entry : MetricsEntry) :
    List MetricsRow :=
  ccRowsOf enterpriseId teamName entry ++ chatRowsOf enterpriseId teamName entry

/-- `write_to_csv(enterprise_id, team_name, entries, csv_writer)`: rows of
all entries, in entry order. -/
def write_to_csv (enterpriseId teamName : String) (entries : List MetricsEntry) :
    List MetricsRow :=
  entries.foldl (fun acc e => acc ++ entryRows enterpriseId teamName e) []

/-! ## Specification-side predicates and concrete test data -/

/-- A page response the `fetch_rest_list_paged` loop accepts and continues
past: no 403/404, no HTTP error status, a normalizable payload of at least
`perPage` items. -/
def okFullPage (keys : List String) (perPage : Nat) (r : HttpResponse) : Prop :=
  ¬(r.status = 403 ∨ r.status = 404) ∧ ¬(400 ≤ r.status ∧ r.status < 600) ∧
  ∃ items, normalize_list_payload r.json keys = .ok items ∧ perPage ≤ items.length

/-- A metrics entry with two editors, each having one model with two
languages, and no chat editors (the end-to-end flattening scenario). -/
def c6Entry : MetricsEntry :=
  { date := some "2024-01-01"
    total_active_users := some 10
    copilot_ide_code_completions := some ⟨some
      [ ⟨some "vscode", some [⟨some "m1", some false, some 0,
          some [⟨some "python", some 1, some 2, some 3, some 4, some 5⟩,
                ⟨some "go", some 6, some 7, some 8, some 9, some 10⟩]⟩]⟩,
        ⟨some "jetbrains", some [⟨some "m1", some false, some 0,
          some [⟨some "python", some 1, some 2, some 3, some 4, some 5⟩,
                ⟨some "go", some 6, some 7, some 8, some 9, some 10⟩]⟩]⟩ ]⟩
    copilot_dotcom_chat := some ⟨some 3⟩
    copilot_dotcom_pull_requests := some ⟨some 4⟩
    copilot_ide_chat := some ⟨some []⟩ }

/-- The first row `write_to_csv` emits for `c6Entry`. -/
def c6Row : MetricsRow :=
  { enterprise := "E", team := "T", date := "2024-01-01"
    editor := "vscode", model := "m1", language := "python"
    total_engaged_users := 1, total_code_acceptances := 2
    total_code_suggestions := 3, total_code_lines_accepted := 4
    total_code_lines_suggested := 5, total_active_users := 10
    total_chat_engaged_users := 3, total_pull_request_engaged_users := 4
    chat_editor_name := "", total_chats := 0, is_custom_model := false
    total_chat_copy_events := 0, total_chat_insertion_events := 0 }

/-! # Theorems -/

/-! ## C5: SCIM pagination termination -/

/-- A non-empty response sequence always accounts for at least one page. -/
theorem scim_go_pos (p : ScimPage) (rest : List ScimPage) (s : Int) :
    1 ≤ (fetch_all_scim_users_go (p :: rest) s).2 := by
  unfold fetch_all_scim_users_go
  by_cases h1 : scimItemsPerPage p ≤ 0
  · simp [h1]
  · by_cases h2 : s + scimItemsPerPage p > scimTotalResults p
    · simp [h1, h2]
    · simp [h1, h2]

/-- Page consumption is bounded by the provided response sequence. -/
theorem scim_go_le_length :
    ∀ (pages : List ScimPage) (s : Int),
      (fetch_all_scim_users_go pages s).2 ≤ pages.length := by
  intro pages
  induction pages with
  | nil => intro s; simp [fetch_all_scim_users_go]
  | cons p rest ih =>
    intro s
    unfold fetch_all_scim_users_go
    by_cases h1 : scimItemsPerPage p ≤ 0
    · simp [h1]
    · by_cases h2 : s + scimItemsPerPage p > scimTotalResults p
      · simp [h1, h2]
      · simp only [h1, h2, if_false, if_neg, List.length_cons]
        have := ih (s + scimItemsPerPage p)
        omega

/-- C5, counterexample: the claim says a first page reporting
`itemsPerPage = 0` ends collection after that single page.  On a first page
with `itemsPerPage = 0` and one resource (`totalResults = 2`), the code
falls back to the resource count (`int(x or len(resources) or 0)` treats the
reported `0` as absent) and requests a second page. -/
theorem c5_counterexample :
    (fetch_all_scim_users
      [⟨[Json.null], some 2, some 0⟩, ⟨[], some 0, some 0⟩]).2 = 2 := rfl

/-- C5 (amended): collection advances `startIndex` by the effective
items-per-page — the reported value when present and non-zero, otherwise the
page's resource count — and stops after the current page exactly when that
effective value is `≤ 0` or the advanced `startIndex` exceeds the reported
`totalResults`; it never requests more pages than the server answers. -/
theorem c5_scim_stop_characterization :
    (∀ (p : ScimPage) (rest : List ScimPage), rest ≠ [] →
        ((fetch_all_scim_users (p :: rest)).2 = 1 ↔
          (scimItemsPerPage p ≤ 0 ∨ 1 + scimItemsPerPage p > scimTotalResults p))) ∧
    (∀ (pages : List ScimPage) (s : Int),
        (fetch_all_scim_users_go pages s).2 ≤ pages.length) := by
  refine ⟨?_, scim_go_le_length⟩
  intro p rest hrest
  unfold fetch_all_scim_users fetch_all_scim_users_go
  by_cases h1 : scimItemsPerPage p ≤ 0
  · simp [h1]
  · by_cases h2 : 1 + scimItemsPerPage p > scimTotalResults p
    · simp [h1, h2]
    · simp only [h1, h2, if_neg, if_false]
      match rest, hrest with
      | q :: rest2, _ =>
        have := scim_go_pos q rest2 (1 + scimItemsPerPage p)
        simp only [iff_false, h1, h2, false_or]
        omega

/-- C5, witness for the amended statement: a first page with
`itemsPerPage = 0` and no resources stops collection after one page. -/
theorem c5_witness :
    (fetch_all_scim_users [⟨[], some 5, some 0⟩, ⟨[Json.null], some 5, some 1⟩]).2 = 1 := by
  exact (c5_scim_stop_characterization.1 ⟨[], some 5, some 0⟩
    [⟨[Json.null], some 5, some 1⟩] (by simp)).mpr (Or.inl (by decide))

/-! ## C2: 403/404 while paging -/

/-- C2, counterexample: the claim says every paginated collection fails with
a raised error on a 403/404 page response, never yielding an empty or
partial result.  The metrics script's `fetch_team_metrics` receives a 404 on
its second page and returns the partial result of page one — no error. -/
theorem c2_counterexample :
    fetch_team_metrics
      [⟨200, [Json.str "entry1"], true⟩, ⟨404, [], false⟩] = [Json.str "entry1"] := rfl

/-- C2 (amended): in the billing-seat script's paged collector
(`fetch_rest_list_paged`), a page response with status 403 or 404 — after any
run of accepted full pages — makes the whole collection fail with an error
carrying the endpoint URL and the response body text, with no further page
requests and no empty/partial result.  The metrics script's collectors
instead log and stop, returning what was already collected. -/
theorem c2_rest_paged_403_404 (url : String) (keys : List String) (perPage : Nat)
    (pre : List HttpResponse) (r : HttpResponse) (rest : List HttpResponse)
    (hpre : ∀ p ∈ pre, okFullPage keys perPage p)
    (hr : r.status = 403 ∨ r.status = 404) :
    fetch_rest_list_paged url keys perPage (pre ++ r :: rest) =
      .error (toString r.status ++ " for " ++ url ++ ": " ++ r.text) := by
  induction pre with
  | nil =>
    unfold fetch_rest_list_paged
    simp [hr]
  | cons p pre2 ih =>
    obtain ⟨h1, h2, items, hnorm, hlen⟩ := hpre p (List.mem_cons_self p pre2)
    have ihh := ih (fun q hq => hpre q (List.mem_cons_of_mem p hq))
    unfold fetch_rest_list_paged
    simp only [List.cons_append, if_neg h1, if_neg h2, hnorm]
    rw [if_neg (by omega)]
    rw [ihh]

/-- C2, witness for the amended statement: one accepted full page, then a
404, fails the collection with the endpoint and body in the error. -/
theorem c2_witness :
    fetch_rest_list_paged "https://api.github.com/enterprises/E/copilot/billing/seats"
      ["seats"] 1
      [⟨200, none, "", Json.obj [("seats", Json.arr [Json.null])]⟩,
       ⟨404, none, "Not Found", Json.null⟩] =
    .error "404 for https://api.github.com/enterprises/E/copilot/billing/seats: Not Found" := by
  have h := c2_rest_paged_403_404
    "https://api.github.com/enterprises/E/copilot/billing/seats" ["seats"] 1
    [⟨200, none, "", Json.obj [("seats", Json.arr [Json.null])]⟩]
    ⟨404, none, "Not Found", Json.null⟩ []
    (by
      intro p hp
      simp only [List.mem_singleton] at hp
      subst hp
      exact ⟨by decide, by decide, [Json.null], rfl, by decide⟩)
    (Or.inr rfl)
  exact h.trans (congrArg Except.error (by decide))

/-! ## C9: payload normalizer -/

/-- When no key of `keys` maps to a list, the key scan finds nothing. -/
theorem tryKeysForList_none (kvs : List (String × Json)) :
    ∀ (keys : List String),
      (∀ k ∈ keys, ∀ v, kvs.lookup k = some v → ∀ ys, v ≠ .arr ys) →
      tryKeysForList kvs keys = none := by
  intro keys
  induction keys with
  | nil => intro _; rfl
  | cons k ks ih =>
    intro h
    unfold tryKeysForList
    have hk := h k (List.mem_cons_self k ks)
    have hks := ih (fun k2 hk2 => h k2 (List.mem_cons_of_mem k hk2))
    match hv : kvs.lookup k with
    | none => simpa [hv] using hks
    | some (.arr ys) => exact absurd rfl (hk (.arr ys) hv ys)
    | some .null | some (.bool _) | some (.num _) | some (.str _) | some (.obj _) =>
      simpa [hv] using hks

/-- The key scan returns the value of the first key holding a list. -/
theorem tryKeysForList_first (kvs : List (String × Json)) (k : String)
    (xs : List Json) (post : List String) (hk : kvs.lookup k = some (.arr xs)) :
    ∀ (pre : List String),
      (∀ k2 ∈ pre, ∀ v, kvs.lookup k2 = some v → ∀ ys, v ≠ .arr ys) →
      tryKeysForList kvs (pre ++ k :: post) = some xs := by
  intro pre
  induction pre with
  | nil => intro _; unfold tryKeysForList; simp [hk]
  | cons k2 pre2 ih =>
    intro h
    have hk2 := h k2 (List.mem_cons_self k2 pre2)
    have hrec := ih (fun k3 hk3 => h k3 (List.mem_cons_of_mem k2 hk3))
    unfold tryKeysForList
    match hv : kvs.lookup k2 with
    | none => simpa [hv] using hrec
    | some (.arr ys) => exact absurd rfl (hk2 (.arr ys) hv ys)
    | some .null | some (.bool _) | some (.num _) | some (.str _) | some (.obj _) =>
      simpa [hv] using hrec

/-- C9: `normalize_list_payload` returns a bare array as is; on a dict it
returns the first list value found trying the keys in their given order; a
dict with no list-valued known key, or any non-list non-dict payload, raises
a descriptive error — never an empty list. -/
theorem c9_normalize_list_payload_spec :
    (∀ (xs : List Json) (keys : List String),
        normalize_list_payload (.arr xs) keys = .ok xs) ∧
    (∀ (kvs : List (String × Json)) (pre : List String) (k : String)
        (post : List String) (xs : List Json),
        kvs.lookup k = some (.arr xs) →
        (∀ k2 ∈ pre, ∀ v, kvs.lookup k2 = some v → ∀ ys, v ≠ .arr ys) →
        normalize_list_payload (.obj kvs) (pre ++ k :: post) = .ok xs) ∧
    (∀ (kvs : List (String × Json)) (keys : List String),
        (∀ k ∈ keys, ∀ v, kvs.lookup k = some v → ∀ ys, v ≠ .arr ys) →
        normalize_list_payload (.obj kvs) keys =
          .error ("Unsupported list payload shape: dict")) ∧
    (∀ (payload : Json) (keys : List String),
        (∀ xs, payload ≠ .arr xs) → (∀ kvs, payload ≠ .obj kvs) →
        normalize_list_payload payload keys =
          .error ("Unsupported list payload shape: " ++ pyTypeName payload)) := by
  refine ⟨fun xs keys => rfl, ?_, ?_, ?_⟩
  · intro kvs pre k post xs hk hpre
    have h2 := tryKeysForList_first kvs k xs post hk pre hpre
    simp [normalize_list_payload, h2]
  · intro kvs keys h
    have h2 := tryKeysForList_none kvs keys h
    simp [normalize_list_payload, h2, pyTypeName]
  · intro payload keys harr hobj
    match payload with
    | .null | .bool _ | .num _ | .str _ => rfl
    | .arr xs => exact absurd rfl (harr xs)
    | .obj kvs => exact absurd rfl (hobj kvs)

/-- C9, witness: a dict whose first known key holds a non-list is skipped
and the second key's list is returned. -/
theorem c9_witness :
    normalize_list_payload
      (.obj [("teams", Json.num 1), ("items", Json.arr [Json.null])])
      ["teams", "items", "data"] = .ok [Json.null] := by
  exact c9_normalize_list_payload_spec.2.1
    [("teams", Json.num 1), ("items", Json.arr [Json.null])]
    ["teams"] "items" ["data"] [Json.null] rfl
    (by
      intro k2 hk2 v hv ys
      simp only [List.mem_singleton] at hk2
      subst hk2
      simp only [List.lookup] at hv
      norm_num at hv
      subst hv
      exact fun h => Json.noConfusion h)

/-! ## C8: activity classification -/

/-- C8: the classification is `"active"` exactly when a timestamp string is
present, non-empty, parses (after the `Z -> +00:00` rewrite) to an instant
`t` with `now - t ≤ 30` days, and is `"inactive"` in every other case — in
particular for a missing or unparseable timestamp, without failing.
`parse` stands for the stdlib `datetime.fromisoformat` (epoch seconds,
`none` = `ValueError`). -/
theorem c8_is_active_spec (parse : String → Option Int) (now : Int)
    (la : Option String) :
    ((is_active parse now la = "active") ↔
      (∃ s t, la = some s ∧ s ≠ "" ∧
        parse (replaceCharStr 'Z' "+00:00" s) = some t ∧ now - t ≤ 30 * 86400)) ∧
    (is_active parse now la = "active" ∨ is_active parse now la = "inactive") := by
  constructor
  · constructor
    · intro h
      match la with
      | none => exact absurd h (by simp [is_active])
      | some s =>
        by_cases hs : s = ""
        · subst hs; exact absurd h (by simp [is_active])
        · match hp : parse (replaceCharStr 'Z' "+00:00" s) with
          | none =>
            exact absurd h (by simp [is_active, hs, hp])
          | some t =>
            by_cases hle : now - t ≤ 30 * 86400
            · exact ⟨s, t, rfl, hs, hp, hle⟩
            · exact absurd h (by simp [is_active, hs, hp]; omega)
    · rintro ⟨s, t, rfl, hs, hp, hle⟩
      simp [is_active, hs, hp]; omega
  · match la with
    | none => exact Or.inr rfl
    | some s =>
      by_cases hs : s = ""
      · subst hs; exact Or.inr rfl
      · match hp : parse (replaceCharStr 'Z' "+00:00" s) with
        | none => exact Or.inr (by simp [is_active, hs, hp])
        | some t =>
          by_cases hle : now - t ≤ 30 * 86400
          · exact Or.inl (by simp [is_active, hs, hp]; omega)
          · exact Or.inr (by simp [is_active, hs, hp]; omega)

/-- C8, witness: with a parse mapping the timestamp to epoch second 0, an
evaluation instant exactly 30 days later classifies `"active"`, 31 days
later classifies `"inactive"`, and a missing timestamp is `"inactive"`. -/
theorem c8_witness :
    is_active (fun _ => some 0) (30 * 86400) (some "1970-01-01T00:00:00Z") = "active" ∧
    is_active (fun _ => some 0) (31 * 86400) (some "1970-01-01T00:00:00Z") = "inactive" ∧
    is_active (fun _ => some 0) (30 * 86400) none = "inactive" := by
  refine ⟨?_, ?_, ?_⟩
  · exact (c8_is_active_spec (fun _ => some 0) (30 * 86400)
      (some "1970-01-01T00:00:00Z")).1.mpr
      ⟨"1970-01-01T00:00:00Z", 0, rfl, by decide, rfl, by decide⟩
  · rcases (c8_is_active_spec (fun _ => some 0) (31 * 86400)
      (some "1970-01-01T00:00:00Z")).2 with h | h
    · exact absurd (((c8_is_active_spec (fun _ => some 0) (31 * 86400)
        (some "1970-01-01T00:00:00Z")).1.mp h))
        (by rintro ⟨s, t, hs, -, hp, hle⟩; cases hs; cases hp; omega)
    · exact h
  · rcases (c8_is_active_spec (fun _ => some 0) (30 * 86400) none).2 with h | h
    · exact absurd ((c8_is_active_spec (fun _ => some 0) (30 * 86400) none).1.mp h)
        (by rintro ⟨s, t, hs, -⟩; cases hs)
    · exact h

/-! ## C6: metrics flattening -/

/-- C6, counterexample: the claim says an entry with two editors, each with
one model and two languages, flattens into exactly 2 rows.  It flattens into
4 rows (2 editors x 1 model x 2 languages), matching the claim's own "sum of
language counts" formula but not its stated total. -/
theorem c6_counterexample :
    (entryRows "E" "T" c6Entry).length = 4 ∧
    ¬ (entryRows "E" "T" c6Entry).length = 2 := by decide

/-- C6 (amended): flattening one entry yields one row per
(editor, model, language) triple under code completions — their number is
the sum of language counts over all (editor, model) pairs, so the two-editor
scenario gives 4 rows, not 2 — followed by one row per (chat editor, model)
pair; every row carries the entry's date-level aggregates unchanged, and the
two families blank/zero each other's column group. -/
theorem c6_flattening_spec (eid tn : String) (entry : MetricsEntry) :
    ((entryRows eid tn entry).length =
      (((entry.copilot_ide_code_completions.getD ⟨none⟩).editors.getD []).map
        (fun ed => ((ed.models.getD []).map
          (fun m => (m.languages.getD []).length)).sum)).sum
      + (((entry.copilot_ide_chat.getD ⟨none⟩).editors.getD []).map
          (fun ce => (ce.models.getD []).length)).sum) ∧
    (∀ row ∈ entryRows eid tn entry,
      row.enterprise = eid ∧ row.team = tn ∧ row.date = entry.date.getD "N/A" ∧
      row.total_active_users = entry.total_active_users.getD 0 ∧
      row.total_chat_engaged_users =
        (entry.copilot_dotcom_chat.getD ⟨none⟩).total_engaged_users.getD 0 ∧
      row.total_pull_request_engaged_users =
        (entry.copilot_dotcom_pull_requests.getD ⟨none⟩).total_engaged_users.getD 0) ∧
    (∀ row ∈ ccRowsOf eid tn entry,
      row.chat_editor_name = "" ∧ row.total_chats = 0 ∧
      row.is_custom_model = false ∧ row.total_chat_copy_events = 0 ∧
      row.total_chat_insertion_events = 0) ∧
    (∀ row ∈ chatRowsOf eid tn entry,
      row.editor = "" ∧ row.model = "" ∧ row.language = "" ∧
      row.total_engaged_users = 0 ∧ row.total_code_acceptances = 0 ∧
      row.total_code_suggestions = 0 ∧ row.total_code_lines_accepted = 0 ∧
      row.total_code_lines_suggested = 0) ∧
    entryRows eid tn entry = ccRowsOf eid tn entry ++ chatRowsOf eid tn entry := by
  refine ⟨?_, ?_, ?_, ?_, rfl⟩
  · simp [entryRows, ccRowsOf, chatRowsOf, List.length_append,
      List.length_flatMap, List.length_map, List.map_map, Function.comp_def]
  · intro row hrow
    simp only [entryRows, List.mem_append, ccRowsOf, chatRowsOf,
      List.mem_flatMap, List.mem_map] at hrow
    rcases hrow with ⟨ed, -, m, -, lang, -, rfl⟩ | ⟨ce, -, m, -, rfl⟩ <;>
      exact ⟨rfl, rfl, rfl, rfl, rfl, rfl⟩
  · intro row hrow
    simp only [ccRowsOf, List.mem_flatMap, List.mem_map] at hrow
    rcases hrow with ⟨ed, -, m, -, lang, -, rfl⟩
    exact ⟨rfl, rfl, rfl, rfl, rfl⟩
  · intro row hrow
    simp only [chatRowsOf, List.mem_flatMap, List.mem_map] at hrow
    rcases hrow with ⟨ce, -, m, -, rfl⟩
    exact ⟨rfl, rfl, rfl, rfl, rfl, rfl, rfl, rfl⟩

/-- C6, witness for the amended statement: the first flattened row of the
two-editor scenario entry carries the entry's aggregates and blank chat
columns. -/
theorem c6_witness :
    c6Row.total_active_users = c6Entry.total_active_users.getD 0 ∧
    c6Row.chat_editor_name = "" := by
  refine ⟨?_, ?_⟩
  · exact (((c6_flattening_spec "E" "T" c6Entry).2.1) c6Row (by decide)).2.2.2.1
  · exact (((c6_flattening_spec "E" "T" c6Entry).2.2.1) c6Row (by decide)).1

/-! ## C1: login candidate generation -/

/-- The candidate-accumulating fold never loses accumulated entries. -/
theorem foldl_addCandidate_mono (suffix : String) :
    ∀ (vs : List String) (out : List String) (x : String),
      x ∈ out → x ∈ vs.foldl (addCandidate suffix) out := by
  intro vs
  induction vs with
  | nil => intro out x hx; exact hx
  | cons v vs ih =>
    intro out x hx
    refine ih (addCandidate suffix out v) x ?_
    unfold addCandidate
    by_cases hv : pyStrip (stripHyphens v) = ""
    · simpa [hv] using hx
    · simp only [hv, if_neg, if_false, List.append_assoc, List.mem_append]
      exact Or.inl hx

/-- Every variant whose stripped form is non-empty contributes that form —
and, when a suffix token is configured, its suffixed form — to the fold. -/
theorem foldl_addCandidate_mem (suffix : String) :
    ∀ (vs : List String) (out : List String) (v0 : String), v0 ∈ vs →
      pyStrip (stripHyphens v0) ≠ "" →
      pyStrip (stripHyphens v0) ∈ vs.foldl (addCandidate suffix) out ∧
      (suffix ≠ "" →
        pyStrip (stripHyphens v0) ++ "_" ++ suffix ∈ vs.foldl (addCandidate suffix) out) := by
  intro vs
  induction vs with
  | nil => intro out v0 hv0; cases hv0
  | cons v vs ih =>
    intro out v0 hv0 hne
    rcases List.mem_cons.mp hv0 with rfl | hv0
    · constructor
      · refine foldl_addCandidate_mono suffix vs (addCandidate suffix out v0) _ ?_
        unfold addCandidate
        simp [hne]
      · intro hsuf
        refine foldl_addCandidate_mono suffix vs (addCandidate suffix out v0) _ ?_
        unfold addCandidate
        simp [hne, hsuf]
    · exact ih (addCandidate suffix out v) v0 hv0 hne

/-- C1, counterexample: the claim says the returned set is non-empty for
every email whose local part (text before the first `@` of the lowercased
email) is non-empty.  For `"---@x.com"` the local part `"---"` is non-empty,
yet every variant strips to `""` and the code returns the empty set. -/
theorem c1_counterexample :
    generate_login_candidates_from_email "" "Newgen-EMU" "---@x.com" = [] ∧
    pyContains (pyLower (pyStrip "---@x.com")) '@' = true ∧
    beforeFirst '@' (pyLower (pyStrip "---@x.com")) ≠ "" := by
  refine ⟨rfl, rfl, by decide⟩

/-- C1 (amended): for every email whose whitespace-stripped, lowercased form
contains `@` and has a non-empty whitespace-stripped local part `L`, every
variant of {L, L without dots, L with dots as hyphens, L with underscores as
hyphens, L restricted to [a-z0-9-], L restricted to [a-z0-9]} that is still
non-empty after stripping surrounding hyphens and whitespace is in the
returned set, together with its `_suffix` form when a suffix token is
configured; the set is non-empty whenever at least one variant survives the
stripping (for `"---@x.com"` none does and the set is empty). -/
theorem c1_candidate_generation (loginSuffix enterpriseSlug email : String)
    (h1 : pyContains (pyLower (pyStrip email)) '@' = true)
    (h2 : pyStrip (beforeFirst '@' (pyLower (pyStrip email))) ≠ "") :
    (∀ v0 ∈ variantsOf (pyStrip (beforeFirst '@' (pyLower (pyStrip email)))),
      pyStrip (stripHyphens v0) ≠ "" →
      pyStrip (stripHyphens v0) ∈
        generate_login_candidates_from_email loginSuffix enterpriseSlug email ∧
      (derive_suffix_token loginSuffix enterpriseSlug ≠ "" →
        pyStrip (stripHyphens v0) ++ "_" ++ derive_suffix_token loginSuffix enterpriseSlug ∈
          generate_login_candidates_from_email loginSuffix enterpriseSlug email)) ∧
    ((∃ v0 ∈ variantsOf (pyStrip (beforeFirst '@' (pyLower (pyStrip email)))),
        pyStrip (stripHyphens v0) ≠ "") →
      generate_login_candidates_from_email loginSuffix enterpriseSlug email ≠ []) := by
  have hgen : generate_login_candidates_from_email loginSuffix enterpriseSlug email =
      (variantsOf (pyStrip (beforeFirst '@' (pyLower (pyStrip email))))).foldl
        (addCandidate (derive_suffix_token loginSuffix enterpriseSlug)) [] := by
    unfold generate_login_candidates_from_email
    simp [h1, h2]
  constructor
  · intro v0 hv0 hne
    rw [hgen]
    exact foldl_addCandidate_mem _ _ [] v0 hv0 hne
  · rintro ⟨v0, hv0, hne⟩
    have hmem := (foldl_addCandidate_mem
      (derive_suffix_token loginSuffix enterpriseSlug) _ [] v0 hv0 hne).1
    rw [hgen]
    exact List.ne_nil_of_mem hmem

/-- C1, witness: the end-to-end scenario — email `s.chander@co.com`, tenant
slug `Newgen-EMU`, no override — yields both `schander_newgen` (dot removed)
and `s-chander_newgen` (dot to hyphen). -/
theorem c1_witness :
    "schander_newgen" ∈
      generate_login_candidates_from_email "" "Newgen-EMU" "s.chander@co.com" ∧
    "s-chander_newgen" ∈
      generate_login_candidates_from_email "" "Newgen-EMU" "s.chander@co.com" := by
  have h := c1_candidate_generation "" "Newgen-EMU" "s.chander@co.com"
    (by decide) (by decide)
  have ha := (h.1 "schander" (by decide) (by decide)).2 (by decide)
  have hb := (h.1 "s-chander" (by decide) (by decide)).2 (by decide)
  have ea : pyStrip (stripHyphens "schander") ++ "_" ++
      derive_suffix_token "" "Newgen-EMU" = "schander_newgen" := by decide
  have eb : pyStrip (stripHyphens "s-chander") ++ "_" ++
      derive_suffix_token "" "Newgen-EMU" = "s-chander_newgen" := by decide
  exact ⟨ea ▸ ha, eb ▸ hb⟩

/-! ## C7: identity index first-write-wins -/

/-- Association-list lookup across an append. -/
theorem lookup_append (l1 l2 : List (String × IdentityFields)) (k : String) :
    (l1 ++ l2).lookup k =
      match l1.lookup k with
      | some w => some w
      | none => l2.lookup k := by
  induction l1 with
  | nil => rfl
  | cons p l1 ih =>
    match p with
    | (k2, v2) =>
      simp only [List.cons_append, List.lookup_cons]
      by_cases h : k == k2 <;> simp [h, ih]

/-- `contains` agrees with membership on lists with lawful equality. -/
theorem contains_iff_mem {α : Type} [BEq α] [LawfulBEq α] (l : List α) (a : α) :
    l.contains a = true ↔ a ∈ l :=
  List.elem_iff

/-- Lookup after folding one record's keys through `setdefault`: an already
present key keeps its value; otherwise the key maps to this record's fields
exactly when it is one of its non-empty keys. -/
theorem foldl_insertKey_lookup (v : IdentityFields) :
    ∀ (ks : List String) (idx : List (String × IdentityFields)) (k : String),
      ((ks.foldl (fun i k2 => insertKey i v k2) idx).lookup k) =
        match idx.lookup k with
        | some w => some w
        | none => if k ≠ "" ∧ k ∈ ks then some v else none := by
  intro ks
  induction ks with
  | nil =>
    intro idx k
    simp only [List.foldl_nil]
    cases h : idx.lookup k <;> simp [h]
  | cons k2 ks ih =>
    intro idx k
    simp only [List.foldl_cons]
    rw [ih (insertKey idx v k2) k]
    unfold insertKey
    by_cases h2 : k2 = ""
    · rw [if_pos h2]
      cases h : idx.lookup k with
      | none =>
        by_cases hk : k = ""
        · subst hk; simp [h]
        · simp [h, List.mem_cons, h2, hk]
      | some w => simp [h]
    · by_cases h3 : (idx.lookup k2).isSome
      · rw [if_neg h2, if_pos h3]
        cases h : idx.lookup k with
        | none =>
          by_cases hk2 : k = k2
          · subst hk2; rw [h] at h3; simp at h3
          · simp [h, List.mem_cons, hk2]
        | some w => simp [h]
      · rw [if_neg h2, if_neg h3, lookup_append]
        cases h : idx.lookup k with
        | none =>
          simp only [h]
          by_cases hk2 : k = k2
          · subst hk2
            simp [List.lookup_cons, List.mem_cons, h2]
          · have hbeq : (k == k2) = false := by simp [hk2]
            simp [List.lookup_cons, hbeq, List.mem_cons, hk2]
        | some w => simp [h]

/-- Lookup after indexing a run of SCIM users on top of an accumulator:
an accumulator hit wins, else the first user claiming the key wins. -/
theorem build_index_lookup_aux (loginSuffix enterpriseSlug k : String) :
    ∀ (users : List ScimUser) (idx : List (String × IdentityFields)), k ≠ "" →
      ((users.foldl (indexUser loginSuffix enterpriseSlug) idx).lookup k) =
        match idx.lookup k with
        | some w => some w
        | none =>
          (users.find?
            (fun u => (recordKeys loginSuffix enterpriseSlug u).contains k)).map identityOf := by
  intro users
  induction users with
  | nil =>
    intro idx hk
    simp only [List.foldl_nil, List.find?_nil]
    cases h : idx.lookup k <;> simp [h]
  | cons u us ih =>
    intro idx hk
    simp only [List.foldl_cons]
    rw [ih (indexUser loginSuffix enterpriseSlug idx u) hk]
    unfold indexUser
    rw [foldl_insertKey_lookup]
    cases h : idx.lookup k
    · simp only [h, List.find?_cons]
      by_cases hmem : k ∈ recordKeys loginSuffix enterpriseSlug u
      · have hc : (recordKeys loginSuffix enterpriseSlug u).contains k = true :=
          (contains_iff_mem _ _).mpr hmem
        simp [hc, hk, hmem]
      · have hc : (recordKeys loginSuffix enterpriseSlug u).contains k = false := by
          rcases hb : (recordKeys loginSuffix enterpriseSlug u).contains k with _ | _
          · rfl
          · exact absurd ((contains_iff_mem _ _).mp hb) hmem
        simp [hc, hk, hmem]
    · simp [h]

/-- C7: for every non-empty candidate key, the built index maps the key to
the identity fields of the first record (in input order) whose key set
claims it, and to nothing when no record claims it — so a later record can
never replace an earlier one's entry. -/
theorem c7_index_first_write_wins (loginSuffix enterpriseSlug : String)
    (users : List ScimUser) (k : String) (hk : k ≠ "") :
    ((build_scim_index loginSuffix enterpriseSlug users).lookup k) =
      (users.find?
        (fun u => (recordKeys loginSuffix enterpriseSlug u).contains k)).map identityOf := by
  have h := build_index_lookup_aux loginSuffix enterpriseSlug k users [] hk
  simpa [build_scim_index] using h

/-- C7, witness: two directory records both claiming key `"bob"` (userNames
`bob` and `Bob`); the index keeps the first record's fields. -/
theorem c7_witness :
    ((build_scim_index "" "Tenant-X"
      [⟨[⟨some true, some "A@x.com"⟩], some "bob", some "One", none⟩,
       ⟨[⟨some true, some "B@x.com"⟩], some "Bob", some "Two", none⟩]).lookup "bob") =
      some ⟨"One", "A@x.com", "bob"⟩ := by
  have h := c7_index_first_write_wins "" "Tenant-X"
    [⟨[⟨some true, some "A@x.com"⟩], some "bob", some "One", none⟩,
     ⟨[⟨some true, some "B@x.com"⟩], some "Bob", some "Two", none⟩] "bob" (by decide)
  rw [h]
  decide

/-! ## C10: retrying client -/

/-- Characterization of the retry loop from attempt `a` with `r` attempts
left: between 1 and `r` GET calls are made, the returned response is the one
of the last attempt, every earlier attempt hit a retried status, the loop
only stops early on a non-retried status, and one backoff sleep is performed
per retried response (including, when the budget is exhausted, the final
one). -/
theorem gh_get_aux_spec (get : Nat → HttpResponse) :
    ∀ (r a : Nat), 1 ≤ r →
      1 ≤ (gh_get_aux get a r).attempts ∧
      (gh_get_aux get a r).attempts ≤ r ∧
      (gh_get_aux get a r).response = get (a + (gh_get_aux get a r).attempts - 1) ∧
      (∀ j, a ≤ j → j < a + (gh_get_aux get a r).attempts - 1 →
        retryStatuses.contains (get j).status = true) ∧
      (retryStatuses.contains (get (a + (gh_get_aux get a r).attempts - 1)).status = false ∨
        (gh_get_aux get a r).attempts = r) ∧
      (gh_get_aux get a r).waits =
        (List.range' a
          (if retryStatuses.contains (get (a + (gh_get_aux get a r).attempts - 1)).status
            then (gh_get_aux get a r).attempts
            else (gh_get_aux get a r).attempts - 1)).map
          (fun j => pyWait (get j) j) := by
  intro r
  induction r with
  | zero => intro a h; exact absurd h (by omega)
  | succ r ih =>
    intro a _
    by_cases hra : retryStatuses.contains (get a).status = true
    · have hmem : (get a).status ∈ retryStatuses := (contains_iff_mem _ _).mp hra
      cases r with
      | zero =>
        have hdef : gh_get_aux get a 1 = ⟨get a, 1, [pyWait (get a) a]⟩ := by
          simp [gh_get_aux, hmem]
        rw [hdef]
        dsimp only
        have hidx : a + 1 - 1 = a := by omega
        rw [hidx]
        refine ⟨le_refl 1, le_refl 1, rfl, ?_, Or.inr rfl, ?_⟩
        · intro j hj1 hj2; omega
        · rw [if_pos hra, List.range'_one]
          rfl
      | succ r2 =>
        have hr2 : 1 ≤ r2 + 1 := by omega
        obtain ⟨ih1, ih2, ih3, ih4, ih5, ih6⟩ := ih (a + 1) hr2
        have hdef : gh_get_aux get a (r2 + 1 + 1) =
            ⟨(gh_get_aux get (a + 1) (r2 + 1)).response,
             (gh_get_aux get (a + 1) (r2 + 1)).attempts + 1,
             pyWait (get a) a :: (gh_get_aux get (a + 1) (r2 + 1)).waits⟩ := by
          simp [gh_get_aux, hmem]
        rw [hdef]
        dsimp only
        have hidx : a + 1 + (gh_get_aux get (a + 1) (r2 + 1)).attempts - 1 =
            a + ((gh_get_aux get (a + 1) (r2 + 1)).attempts + 1) - 1 := by omega
        rw [hidx] at ih3 ih4 ih5 ih6
        refine ⟨by omega, by omega, ih3, ?_, ?_, ?_⟩
        · intro j hj1 hj2
          by_cases hja : j = a
          · subst hja; exact hra
          · exact ih4 j (by omega) (by omega)
        · rcases ih5 with h5 | h5
          · exact Or.inl h5
          · exact Or.inr (by omega)
        · by_cases hlast :
              retryStatuses.contains
                (get (a + ((gh_get_aux get (a + 1) (r2 + 1)).attempts + 1) - 1)).status = true
          · rw [if_pos hlast] at ih6
            rw [if_pos hlast, List.range'_succ, List.map_cons, ih6]
          · rw [if_neg hlast] at ih6
            have ha1 : (gh_get_aux get (a + 1) (r2 + 1)).attempts + 1 - 1 =
                ((gh_get_aux get (a + 1) (r2 + 1)).attempts - 1) + 1 := by omega
            rw [if_neg hlast, ha1, List.range'_succ, List.map_cons, ih6]
    · have hmem : ¬ (get a).status ∈ retryStatuses :=
        fun h => hra ((contains_iff_mem _ _).mpr h)
      have hdef : gh_get_aux get a (r + 1) = ⟨get a, 1, []⟩ := by
        simp [gh_get_aux, hmem]
      rw [hdef]
      dsimp only
      have hidx : a + 1 - 1 = a := by omega
      rw [hidx]
      refine ⟨le_refl 1, by omega, rfl, ?_, Or.inl (by simpa using hra), ?_⟩
      · intro j hj1 hj2; omega
      · rw [if_neg hra]
        rfl

/-- C10: `gh_get` makes between 1 and 6 GET attempts and always hands back a
response: the first one whose status is outside {403, 429, 500, 502, 503,
504} — returned immediately, with every earlier attempt having hit a retried
status — or, when all six attempts hit retried statuses, the last (sixth)
response; one backoff sleep is performed per retried response, its duration
the numeric `Retry-After` header when present, else `min(30, 2 * attempt)`
seconds. -/
theorem c10_gh_get_spec (get : Nat → HttpResponse) :
    1 ≤ (gh_get get).attempts ∧
    (gh_get get).attempts ≤ 6 ∧
    (gh_get get).response = get (gh_get get).attempts ∧
    (∀ j, 1 ≤ j → j < (gh_get get).attempts →
      retryStatuses.contains (get j).status = true) ∧
    (retryStatuses.contains (get (gh_get get).attempts).status = false ∨
      (gh_get get).attempts = 6) ∧
    (gh_get get).waits =
      (List.range' 1
        (if retryStatuses.contains (get (gh_get get).attempts).status
          then (gh_get get).attempts
          else (gh_get get).attempts - 1)).map
        (fun j =>
          match (get j).retryAfter with
          | some ra => if ra ≠ "" && allDigits ra then parseNat ra
                       else min 30 (2 * j)
          | none => min 30 (2 * j)) := by
  simp only [gh_get]
  obtain ⟨h1, h2, h3, h4, h5, h6⟩ := gh_get_aux_spec get 6 1 (by omega)
  have hidx : 1 + (gh_get_aux get 1 6).attempts - 1 = (gh_get_aux get 1 6).attempts := by
    omega
  rw [hidx] at h3 h4 h5 h6
  exact ⟨h1, h2, h3, fun j hj1 hj2 => h4 j hj1 (by omega), h5, h6⟩

/-- C10, witness: a server answering 500 with `Retry-After: 7` on the first
attempt and 200 on the second: two GET calls, one 7-second sleep, and the
200 response is returned; the first attempt's status was in the retry set. -/
theorem c10_witness :
    retryStatuses.contains
      ((fun k => if k = 1 then (⟨500, some "7", "", Json.null⟩ : HttpResponse)
                 else ⟨200, none, "", Json.null⟩) 1).status = true ∧
    (gh_get (fun k => if k = 1 then (⟨500, some "7", "", Json.null⟩ : HttpResponse)
                      else ⟨200, none, "", Json.null⟩)).attempts = 2 ∧
    (gh_get (fun k => if k = 1 then (⟨500, some "7", "", Json.null⟩ : HttpResponse)
                      else ⟨200, none, "", Json.null⟩)).waits = [7] := by
  refine ⟨?_, by decide, by decide⟩
  exact (c10_gh_get_spec
    (fun k => if k = 1 then (⟨500, some "7", "", Json.null⟩ : HttpResponse)
              else ⟨200, none, "", Json.null⟩)).2.2.2.1 1 (by decide) (by decide)

/-! ## C3: one row per (team, membership) pair -/

/-- The membership loop, started from an arbitrary accumulator, appends one
row per membership with a parseable non-empty login. -/
theorem membership_fold_rows (es : String) (idx : List (String × IdentityFields))
    (seats : List (String × Json)) (parse : String → Option Int) (now : Int)
    (tn ts : String) :
    ∀ (ms : List Json) (rows : List ReportRow),
      (ms.foldl (fun rows m =>
          let login := parse_membership_login m
          if login = "" then rows
          else rows ++ [rowFor es idx seats parse now tn ts login]) rows)
      = rows ++ ms.filterMap (fun m =>
          let login := parse_membership_login m
          if login = "" then none
          else some (rowFor es idx seats parse now tn ts login)) := by
  intro ms
  induction ms with
  | nil => intro rows; simp
  | cons m ms ih =>
    intro rows
    simp only [List.foldl_cons, List.filterMap_cons]
    by_cases h : parse_membership_login m = "" <;> simp [h, ih]

/-- The team loop, started from an arbitrary accumulator. -/
theorem team_fold_rows (es : String) (idx : List (String × IdentityFields))
    (seats : List (String × Json)) (parse : String → Option Int) (now : Int)
    (membershipsOf : String → List Json) :
    ∀ (teams : List Json) (rows : List ReportRow),
      (teams.foldl (fun rows t =>
          let teamName := teamNameOf t
          let teamSlug := teamSlugOf t
          if teamSlug = "" then rows
          else (membershipsOf teamSlug).foldl (fun rows m =>
            let login := parse_membership_login m
            if login = "" then rows
            else rows ++ [rowFor es idx seats parse now teamName teamSlug login]) rows)
        rows)
      = rows ++ teams.flatMap (fun t =>
          if teamSlugOf t = "" then []
          else (membershipsOf (teamSlugOf t)).filterMap (fun m =>
            let login := parse_membership_login m
            if login = "" then none
            else some (rowFor es idx seats parse now (teamNameOf t) (teamSlugOf t) login))) := by
  intro teams
  induction teams with
  | nil => intro rows; simp
  | cons t ts ih =>
    intro rows
    simp only [List.foldl_cons, List.flatMap_cons]
    by_cases h : teamSlugOf t = ""
    · simp [h, ih]
    · simp only [h, if_neg, ite_false]
      rw [membership_fold_rows es idx seats parse now (teamNameOf t) (teamSlugOf t)
        (membershipsOf (teamSlugOf t)) rows, ih, List.append_assoc]

/-- C3 (amended): the report contains exactly one row per (team, membership)
pair whose team has a non-empty slug and whose membership yields a non-empty
login (teams without a slug and memberships without a parseable login are
skipped and emit no row); in each row, a failed identity lookup leaves the
identity fields blank, and a failed seat lookup leaves the seat fields blank
with `copilot_assigned = "no"` (and `active_status = "inactive"`). -/
theorem c3_one_row_per_pair (es : String) (idx : List (String × IdentityFields))
    (seats : List (String × Json)) (parse : String → Option Int) (now : Int)
    (teams : List Json) (membershipsOf : String → List Json) :
    (mainRows es idx seats parse now teams membershipsOf =
      teams.flatMap (fun t =>
        if teamSlugOf t = "" then []
        else (membershipsOf (teamSlugOf t)).filterMap (fun m =>
          let login := parse_membership_login m
          if login = "" then none
          else some (rowFor es idx seats parse now (teamNameOf t) (teamSlugOf t) login)))) ∧
    (∀ tn ts login, idx.lookup (pyStrip (pyLower login)) = none →
      (rowFor es idx seats parse now tn ts login).name = "" ∧
      (rowFor es idx seats parse now tn ts login).email = "" ∧
      (rowFor es idx seats parse now tn ts login).scim_userName = "") ∧
    (∀ tn ts login, seats.lookup login = none →
      (rowFor es idx seats parse now tn ts login).copilot_assigned = "no" ∧
      (rowFor es idx seats parse now tn ts login).copilot_status = "" ∧
      (rowFor es idx seats parse now tn ts login).plan_type = "" ∧
      (rowFor es idx seats parse now tn ts login).last_activity_at = "" ∧
      (rowFor es idx seats parse now tn ts login).active_status = "inactive" ∧
      (rowFor es idx seats parse now tn ts login).seat_created_at = "" ∧
      (rowFor es idx seats parse now tn ts login).seat_updated_at = "") := by
  refine ⟨?_, ?_, ?_⟩
  · unfold mainRows
    rw [team_fold_rows es idx seats parse now membershipsOf teams []]
    simp
  · intro tn ts login h
    unfold rowFor
    simp [h]
  · intro tn ts login h
    unfold rowFor
    simp [h]

/-- C3, counterexample: the claim says one row is emitted per (team,
membership) pair regardless of lookup success.  A team with slug `"t"` and
one membership `{}` (no login field at all) emits zero rows: the code skips
memberships whose login cannot be extracted. -/
theorem c3_counterexample :
    mainRows "E" [] [] (fun _ => none) 0 [Json.obj [("slug", Json.str "t")]]
      (fun _ => [Json.obj []]) = [] ∧
    teamSlugOf (Json.obj [("slug", Json.str "t")]) = "t" ∧
    ((fun _ => [Json.obj []]) "t" : List Json).length = 1 := by
  exact ⟨rfl, by decide, rfl⟩

/-- C3, witness for the amended statement: with an empty identity index and
an empty seat map, the row for login `"bob"` has blank identity fields,
`copilot_assigned = "no"` and `active_status = "inactive"`. -/
theorem c3_witness :
    (rowFor "E" [] [] (fun _ => none) 0 "T" "t" "bob").name = "" ∧
    (rowFor "E" [] [] (fun _ => none) 0 "T" "t" "bob").copilot_assigned = "no" ∧
    (rowFor "E" [] [] (fun _ => none) 0 "T" "t" "bob").active_status = "inactive" := by
  have h := c3_one_row_per_pair "E" [] [] (fun _ => none) 0 [] (fun _ => [])
  exact ⟨(h.2.1 "T" "t" "bob" rfl).1, (h.2.2 "T" "t" "bob" rfl).1,
    (h.2.2 "T" "t" "bob" rfl).2.2.2.2.1⟩

/-! ## C4: case sensitivity of the two lookups -/

/-- C4, counterexample: the claim says the seat lookup is case-insensitive.
A seat assigned to login `"Alice"` is not found for membership login
`"alice"` (equal up to case): the row reports `copilot_assigned = "no"`,
because `seats_by_login.get(login)` uses the raw login as exact dict key. -/
theorem c4_counterexample :
    pyLower "alice" = pyLower "Alice" ∧
    ((seats_by_login
        [Json.obj [("assignee", Json.obj [("login", Json.str "Alice")]),
                   ("status", Json.str "active")]]).lookup "Alice").isSome = true ∧
    (rowFor "E" []
      (seats_by_login
        [Json.obj [("assignee", Json.obj [("login", Json.str "Alice")]),
                   ("status", Json.str "active")]])
      (fun _ => none) 0 "T" "t" "alice").copilot_assigned = "no" := by
  exact ⟨by decide, rfl, rfl⟩

/-- C4 (amended): the identity lookup is case-insensitive — the index key is
`login.lower().strip()`, so two logins equal up to case yield the same
identity fields — while the seat lookup is exact and case-sensitive: the
seat columns are determined by the raw login as dict key, `"no"` when that
exact key is absent and `"yes"` when it maps to a (truthy) seat. -/
theorem c4_lookup_case_rules (es : String) (idx : List (String × IdentityFields))
    (seats : List (String × Json)) (parse : String → Option Int) (now : Int)
    (tn ts : String) :
    (∀ l1 l2 : String, pyStrip (pyLower l1) = pyStrip (pyLower l2) →
      (rowFor es idx seats parse now tn ts l1).name =
        (rowFor es idx seats parse now tn ts l2).name ∧
      (rowFor es idx seats parse now tn ts l1).email =
        (rowFor es idx seats parse now tn ts l2).email ∧
      (rowFor es idx seats parse now tn ts l1).scim_userName =
        (rowFor es idx seats parse now tn ts l2).scim_userName) ∧
    (∀ login, seats.lookup login = none →
      (rowFor es idx seats parse now tn ts login).copilot_assigned = "no") ∧
    (∀ login v, seats.lookup login = some v → jsonTruthy v = true →
      (rowFor es idx seats parse now tn ts login).copilot_assigned = "yes") := by
  refine ⟨?_, ?_, ?_⟩
  · intro l1 l2 h
    unfold rowFor
    rw [h]
    exact ⟨rfl, rfl, rfl⟩
  · intro login h
    unfold rowFor
    simp [h]
  · intro login v h ht
    unfold rowFor
    simp [h, ht]

/-- C4, witness for the amended statement: logins `"BOB"` and `"bob"` give
the same identity fields, and a truthy seat under exact key `"Alice"` gives
`copilot_assigned = "yes"` for login `"Alice"`. -/
theorem c4_witness :
    (rowFor "E" [("bob", ⟨"N", "e@x", "bob"⟩)] [] (fun _ => none) 0 "T" "t" "BOB").name =
      (rowFor "E" [("bob", ⟨"N", "e@x", "bob"⟩)] [] (fun _ => none) 0 "T" "t" "bob").name ∧
    (rowFor "E" [] [("Alice", Json.obj [("status", Json.str "active")])]
      (fun _ => none) 0 "T" "t" "Alice").copilot_assigned = "yes" := by
  have h1 := (c4_lookup_case_rules "E" [("bob", ⟨"N", "e@x", "bob"⟩)] []
    (fun _ => none) 0 "T" "t").1 "BOB" "bob" (by decide)
  have h2 := (c4_lookup_case_rules "E" [] [("Alice", Json.obj [("status", Json.str "active")])]
    (fun _ => none) 0 "T" "t").2.2 "Alice" (Json.obj [("status", Json.str "active")]) rfl rfl
  exact ⟨h1.1, h2⟩

end CTM
